import Mathlib

/-!
Shallow embedding of the reminder lifecycle and escalation scheduler of the
habitmax-bot repository, together with theorems settling the frozen claims.

Sources embedded here:
- src/backend/src/config/database.js  (createReminder, updateReminder, getReminderById, createEvent)
- src/unnamed/part_006                (scheduler/reminderQueue: queues, workers, quiet hours,
                                       generateReminders; bot/webhook: handleReminderComplete,
                                       handleReminderPostpone, handleReminderSkip)
- src/unnamed/part_008                (PostgreSQL schema, reminders and events tables)
- src/backend/src/api/routes.js       (mini-app complete and postpone routes)

Machine integers of the source are JavaScript numbers used as ids, counters and
minute offsets; all stay far below 2^53, so they are embedded as Nat.
Times of day ("HH:MM" strings compared lexicographically in the source) are
embedded as minutes since midnight: on zero-padded fixed-width strings the
source's lexicographic string comparison coincides with numeric order.
Timestamps are embedded as (day index, minutes since midnight) pairs.
-/

namespace HabitMax

/-- Reminder status values, from the CHECK constraint of the reminders table
(src/unnamed/part_008 line 120): pending, sent, completed, skipped, postponed.
The schema admits no other status value. -/
inductive Status where
  | pending
  | sent
  | completed
  | skipped
  | postponed
deriving DecidableEq, Repr

/-- Confirmation methods written by the handlers: the bot webhook writes push,
the mini-app route writes miniapp. -/
inductive ConfirmMethod where
  | push
  | miniapp
deriving DecidableEq, Repr

/-- One row of the reminders table (src/unnamed/part_008 lines 111-138),
restricted to the columns the embedded code reads or writes. -/
structure Reminder where
  reminder_id : Nat
  routine_id : Nat
  user_id : Nat
  scheduled_date : Nat
  scheduled_time : Nat
  status : Status
  postpone_count : Nat
  max_postpones : Nat
  escalation_level : Nat
  sent_at : Option Nat
  completed_at : Option Nat
  confirmation_method : Option ConfirmMethod
deriving DecidableEq, Repr

/-- The updates object passed to updateReminder. Each field mirrors one entry
of the allowedFields list in database.js lines 549-552 (metadata, which no
embedded caller passes, is elided). A field set to none models a key absent
from the JavaScript updates object. -/
structure ReminderUpdates where
  status : Option Status := none
  postpone_count : Option Nat := none
  sent_at : Option Nat := none
  completed_at : Option Nat := none
  confirmation_method : Option ConfirmMethod := none
  escalation_level : Option Nat := none
deriving DecidableEq, Repr

/-- True when at least one allowed field is present, mirroring the
setClauses.length check of database.js lines 554-568. -/
def hasValidField (u : ReminderUpdates) : Bool :=
  u.status.isSome || u.postpone_count.isSome || u.sent_at.isSome ||
  u.completed_at.isSome || u.confirmation_method.isSome || u.escalation_level.isSome

/-- Overwrite a nullable column when the update carries the field, keep the
stored value otherwise. -/
def setNullable {α : Type} (upd : Option α) (cur : Option α) : Option α :=
  match upd with
  | some v => some v
  | none => cur

/-- Effect of the generated SET clauses on one row: each present field
overwrites the stored column, absent fields leave it unchanged. -/
def applyUpdates (r : Reminder) (u : ReminderUpdates) : Reminder :=
  { r with
    status := u.status.getD r.status
    postpone_count := u.postpone_count.getD r.postpone_count
    sent_at := setNullable u.sent_at r.sent_at
    completed_at := setNullable u.completed_at r.completed_at
    confirmation_method := setNullable u.confirmation_method r.confirmation_method
    escalation_level := u.escalation_level.getD r.escalation_level }

/-- Errors raised by the embedded database layer. -/
inductive DbError where
  | noValidFields
deriving DecidableEq, Repr

/-- getReminderById of database.js lines 586-595: SELECT by reminder_id,
returning the row or null. The JOIN with routines only adds display columns,
which are elided. -/
def getReminderById (store : List Reminder) (reminderId : Nat) : Option Reminder :=
  match store with
  | [] => none
  | r :: rest => if r.reminder_id = reminderId then some r else getReminderById rest reminderId

/-- The UPDATE statement of updateReminder: every row whose reminder_id
matches receives the SET clauses; all other rows are untouched. -/
def updateRows (store : List Reminder) (reminderId : Nat) (u : ReminderUpdates) : List Reminder :=
  store.map fun r => if r.reminder_id = reminderId then applyUpdates r u else r

/-- updateReminder of database.js lines 548-580. It receives only the
reminder id and the updates object; the generated SQL is
UPDATE reminders SET ... WHERE reminder_id = id RETURNING *, so the write is
keyed by id alone, carries no expected-status condition, and returns the
updated row (result.rows[0]). An updates object with no allowed field throws. -/
def updateReminder (store : List Reminder) (reminderId : Nat) (u : ReminderUpdates) :
    Except DbError (List Reminder × Option Reminder) :=
  if hasValidField u then
    .ok (updateRows store reminderId u, (getReminderById store reminderId).map (applyUpdates · u))
  else
    .error .noValidFields

/-- Columns of the reminders table that appear in unique indexes or in the
ON CONFLICT target of createReminder. -/
inductive ReminderCol where
  | reminder_id
  | routine_id
  | user_id
  | scheduled_date
  | scheduled_time
deriving DecidableEq, Repr

/-- Two column lists name the same column set (PostgreSQL matches an
ON CONFLICT target against an arbiter index by column set). -/
def sameColumnSet (a b : List ReminderCol) : Bool :=
  a.all (fun c => b.contains c) && b.all (fun c => a.contains c)

/-- Unique indexes on the reminders table as declared by the schema
(src/unnamed/part_008 lines 111-144): only the primary key on reminder_id.
The four idx_reminders_* indexes of lines 141-144 are non-unique, and no
migration in the repository adds a unique constraint on
(routine_id, scheduled_date, scheduled_time). -/
def reminderUniqueIndexes : List (List ReminderCol) :=
  [[.reminder_id]]

/-- The ON CONFLICT target of createReminder (database.js line 493). -/
def onConflictTarget : List ReminderCol :=
  [.routine_id, .scheduled_date, .scheduled_time]

/-- Arguments of createReminder (database.js lines 480-487), with the
max_postpones default of 2. -/
structure ReminderData where
  routine_id : Nat
  user_id : Nat
  scheduled_date : Nat
  scheduled_time : Nat
  max_postpones : Nat := 2
deriving DecidableEq, Repr

/-- Errors PostgreSQL raises for the embedded INSERT. -/
inductive PgError where
  | noArbiterIndex
deriving DecidableEq, Repr

/-- createReminder of database.js lines 480-499: INSERT INTO reminders ...
ON CONFLICT (routine_id, scheduled_date, scheduled_time) DO NOTHING
RETURNING *. PostgreSQL first resolves the ON CONFLICT target against a
unique or exclusion constraint on exactly those columns; when no such
arbiter index exists the whole statement is rejected with
"there is no unique or exclusion constraint matching the ON CONFLICT
specification" before any row is considered. With an arbiter present, a
conflicting insert is a silent no-op returning zero rows and a fresh insert
returns the new row. -/
def createReminder (table : List Reminder) (nextId : Nat) (rd : ReminderData) :
    Except PgError (List Reminder × Option Reminder) :=
  if reminderUniqueIndexes.any (fun idx => sameColumnSet idx onConflictTarget) then
    if table.any (fun r =>
        decide (r.routine_id = rd.routine_id) &&
        decide (r.scheduled_date = rd.scheduled_date) &&
        decide (r.scheduled_time = rd.scheduled_time)) then
      .ok (table, none)
    else
      let r : Reminder :=
        { reminder_id := nextId
          routine_id := rd.routine_id
          user_id := rd.user_id
          scheduled_date := rd.scheduled_date
          scheduled_time := rd.scheduled_time
          status := .pending
          postpone_count := 0
          max_postpones := rd.max_postpones
          escalation_level := 0
          sent_at := none
          completed_at := none
          confirmation_method := none }
      .ok (table ++ [r], some r)
  else
    .error .noArbiterIndex

/-- Event rows (events table, src/unnamed/part_008 lines 149-159) as written
by the embedded handlers. -/
inductive EventType where
  | completed
  | skipped
  | auto_skipped
deriving DecidableEq, Repr

/-- Event sources used by the embedded handlers. -/
inductive EventSource where
  | bot
  | miniapp
  | system
deriving DecidableEq, Repr

/-- One row of the append-only events table. -/
structure Event where
  reminder_id : Nat
  user_id : Nat
  routine_id : Nat
  event_type : EventType
  event_source : EventSource
deriving DecidableEq, Repr

/-- BullMQ job identities (src/unnamed/part_006): the deliver queue uses
jobId reminder:{reminderId} (line 531) and the escalation queue uses
jobId escalation:{reminderId}:{level} (line 568). -/
inductive JobKey where
  | reminderJob (reminderId : Nat)
  | escalationJob (reminderId : Nat) (level : Nat)
deriving DecidableEq, Repr

/-- Messages the scheduler sends through the Max messaging client,
identified by which template the source renders. -/
inductive MsgKind where
  | notFound
  | generalError
  | limitReached
  | postponeSuccess
  | completeSuccess
  | skipSuccess
  | initialReminder
  | escalation (level : Nat)
  | autoSkipNotice
deriving DecidableEq, Repr

/-- A user row, restricted to the quiet-hours columns the workers read. -/
structure User where
  user_id : Nat
  quiet_hours_start : Option Nat
  quiet_hours_end : Option Nat
deriving DecidableEq, Repr

/-- The observable scheduler state: the reminders table, the append-only
events table, the set of unfired BullMQ queue entries, and the messages
sent to users (user id paired with the rendered template). -/
structure SchedState where
  reminders : List Reminder
  events : List Event
  jobs : List JobKey
  messages : List (Nat × MsgKind)
deriving DecidableEq, Repr

/-- BullMQ Queue.add with a jobId: adding a jobId that is already queued
does not create a second entry. -/
def addJob (k : JobKey) (jobs : List JobKey) : List JobKey :=
  if k ∈ jobs then jobs else jobs ++ [k]

/-- BullMQ Queue.remove by jobId: removes the entry when present, a no-op
otherwise. -/
def removeJob (k : JobKey) (jobs : List JobKey) : List JobKey :=
  jobs.filter fun j => decide ¬(j = k)

/-- maxApi.sendMessageWithKeyboard and sendTextMessage, observed as the
message appended to the outbox. -/
def sendMessage (s : SchedState) (userId : Nat) (m : MsgKind) : SchedState :=
  { s with messages := s.messages ++ [(userId, m)] }

/-- createEvent of database.js lines 605-624: append one event row. -/
def createEvent (s : SchedState) (e : Event) : SchedState :=
  { s with events := s.events ++ [e] }

/-- scheduleEscalation of src/unnamed/part_006 lines 567-590: enqueue an
escalation entry under jobId escalation:{reminderId}:{level}. The delay in
minutes determines the firing time and no claim depends on its value, so it
is carried but not recorded in the queue entry. -/
def scheduleEscalation (reminderId level delayMinutes : Nat) (s : SchedState) : SchedState :=
  let _ := delayMinutes
  { s with jobs := addJob (.escalationJob reminderId level) s.jobs }

/-- scheduleReminder of src/unnamed/part_006 lines 530-559: enqueue a deliver
entry under jobId reminder:{reminderId}. -/
def scheduleReminderJob (reminderId : Nat) (s : SchedState) : SchedState :=
  { s with jobs := addJob (.reminderJob reminderId) s.jobs }

/-- cancelReminderJobs of src/unnamed/part_006 lines 596-606: remove the
deliver entry and the escalation entries for levels 1, 2 and 3. Exported by
the scheduler module but invoked by no handler in the repository. -/
def cancelReminderJobs (reminderId : Nat) (s : SchedState) : SchedState :=
  let s1 := { s with jobs := removeJob (.reminderJob reminderId) s.jobs }
  let s2 := { s1 with jobs := removeJob (.escalationJob reminderId 1) s1.jobs }
  let s3 := { s2 with jobs := removeJob (.escalationJob reminderId 2) s2.jobs }
  { s3 with jobs := removeJob (.escalationJob reminderId 3) s3.jobs }

/-- Result of a webhook reminder action, identified by which reply template
the handler renders: errors.not_found, the dedicated postpone-limit message,
the success message, or errors.general from the catch block. -/
inductive ActionResult where
  | notFound
  | limitReached
  | ok
  | generalError
deriving DecidableEq, Repr

/-- handleReminderComplete of src/unnamed/part_006 lines 1946-1998: load the
reminder; missing row or foreign owner answers errors.not_found and stops;
otherwise write status completed with completed_at and confirmation push
through updateReminder, append a completed event, update gamification
(external to the scheduler, no scheduler state), and send the completion
message. Achievement announcements only add further messages and are elided.
The queue is never touched. -/
def handleReminderComplete (userId reminderId now : Nat) (s : SchedState) :
    SchedState × ActionResult :=
  match getReminderById s.reminders reminderId with
  | none => (sendMessage s userId .notFound, .notFound)
  | some r =>
    if r.user_id ≠ userId then (sendMessage s userId .notFound, .notFound)
    else
      match updateReminder s.reminders reminderId
          { status := some .completed
            completed_at := some now
            confirmation_method := some .push } with
      | .error _ => (sendMessage s userId .generalError, .generalError)
      | .ok (store1, _) =>
        let s1 := { s with reminders := store1 }
        let s2 := createEvent s1
          { reminder_id := reminderId
            user_id := userId
            routine_id := r.routine_id
            event_type := .completed
            event_source := .bot }
        (sendMessage s2 userId .completeSuccess, .ok)

/-- handleReminderPostpone of src/unnamed/part_006 lines 2006-2037: load the
reminder; missing row or foreign owner answers errors.not_found; a
postpone_count at or above max_postpones answers the dedicated limit
message; otherwise write status postponed with postpone_count + 1 and send
the postpone success message. The line-2028 TODO leaves the queue untouched:
no escalation entry is cancelled and no new deliver entry is enqueued, and
the minutes argument only appears in the reply text. -/
def handleReminderPostpone (userId reminderId minutes : Nat) (s : SchedState) :
    SchedState × ActionResult :=
  let _ := minutes
  match getReminderById s.reminders reminderId with
  | none => (sendMessage s userId .notFound, .notFound)
  | some r =>
    if r.user_id ≠ userId then (sendMessage s userId .notFound, .notFound)
    else if r.postpone_count ≥ r.max_postpones then
      (sendMessage s userId .limitReached, .limitReached)
    else
      match updateReminder s.reminders reminderId
          { status := some .postponed
            postpone_count := some (r.postpone_count + 1) } with
      | .error _ => (sendMessage s userId .generalError, .generalError)
      | .ok (store1, _) =>
        let s1 := { s with reminders := store1 }
        (sendMessage s1 userId .postponeSuccess, .ok)

/-- handleReminderSkip of src/unnamed/part_006 lines 2044-2077: load the
reminder; missing row or foreign owner answers errors.not_found; otherwise
write status skipped, append a skipped event, update gamification
(external), and send the skip message. The queue is never touched. -/
def handleReminderSkip (userId reminderId : Nat) (s : SchedState) :
    SchedState × ActionResult :=
  match getReminderById s.reminders reminderId with
  | none => (sendMessage s userId .notFound, .notFound)
  | some r =>
    if r.user_id ≠ userId then (sendMessage s userId .notFound, .notFound)
    else
      match updateReminder s.reminders reminderId { status := some .skipped } with
      | .error _ => (sendMessage s userId .generalError, .generalError)
      | .ok (store1, _) =>
        let s1 := { s with reminders := store1 }
        let s2 := createEvent s1
          { reminder_id := reminderId
            user_id := userId
            routine_id := r.routine_id
            event_type := .skipped
            event_source := .bot }
        (sendMessage s2 userId .skipSuccess, .ok)

/-- isQuietHours of src/unnamed/part_006 lines 860-872. Null start or end
disables quiet hours; a non-wrapping window (start below or at end) is quiet
when start is at most the current time which is at most end; a wrapping
window is quiet when the current time is at or after start or at or before
end. Source comparisons are lexicographic on zero-padded HH:MM strings,
which is numeric order on minutes since midnight. -/
def isQuietHours (u : User) (currentTime : Nat) : Bool :=
  match u.quiet_hours_start, u.quiet_hours_end with
  | some qs, some qe =>
    if qs ≤ qe then decide (qs ≤ currentTime) && decide (currentTime ≤ qe)
    else decide (currentTime ≥ qs) || decide (currentTime ≤ qe)
  | _, _ => false

/-- getEndOfQuietHours of src/unnamed/part_006 lines 878-889: place the
quiet-window end time on today's date and roll it to the next day when that
moment is at or before now. Timestamps are (day index, minutes) pairs. A
user without a quiet_hours_end would make the source throw on split, so the
result is optional; every caller guards with isQuietHours first. -/
def getEndOfQuietHours (u : User) (now : Nat × Nat) : Option (Nat × Nat) :=
  match u.quiet_hours_end with
  | none => none
  | some qe => some (if qe ≤ now.2 then (now.1 + 1, qe) else (now.1, qe))

/-- Payload of a deliver job (src/unnamed/part_006 lines 533-550), restricted
to the fields the worker branches on; title, type, icon and dosage only feed
the message text. -/
structure DeliverJobData where
  reminderId : Nat
  userId : Nat
deriving DecidableEq, Repr

/-- Outcome of one run of the deliver worker. -/
inductive DeliverResult where
  | alreadyProcessed
  | postponedQuiet
  | sent
  | errored
deriving DecidableEq, Repr

/-- Escalation delay constants of src/backend/src/config/index.js lines
113-117: first reminder at 15 minutes, second at 45, auto-skip at 60. -/
def escalationConfig : Nat × Nat × Nat := (15, 45, 60)

/-- The reminders worker of src/unnamed/part_006 lines 611-691: re-read the
row and no-op unless its status is still pending; during the user's quiet
hours re-enqueue the deliver job for the window end and leave the row
pending; otherwise send the initial reminder message, write status sent with
sent_at, and enqueue the level-1 escalation. A missing user row makes the
source throw on property access, modelled as the errored outcome. -/
def reminderWorkerStep (users : List User) (now : Nat × Nat) (jd : DeliverJobData)
    (s : SchedState) : SchedState × DeliverResult :=
  match getReminderById s.reminders jd.reminderId with
  | none => (s, .alreadyProcessed)
  | some r =>
    if r.status ≠ Status.pending then (s, .alreadyProcessed)
    else
      match users.find? (fun u => decide (u.user_id = jd.userId)) with
      | none => (s, .errored)
      | some u =>
        if isQuietHours u now.2 then
          (scheduleReminderJob jd.reminderId s, .postponedQuiet)
        else
          let s1 := sendMessage s jd.userId .initialReminder
          match updateReminder s1.reminders jd.reminderId
              { status := some .sent, sent_at := some (now.1 * 1440 + now.2) } with
          | .error _ => (s1, .errored)
          | .ok (store1, _) =>
            let s2 := { s1 with reminders := store1 }
            (scheduleEscalation jd.reminderId 1 escalationConfig.1 s2, .sent)

/-- Outcome of one run of the escalation worker. -/
inductive EscalationResult where
  | notFound
  | statusTerminal (st : Status)
  | autoSkipped
  | noTemplate
  | escalated (level : Nat)
  | errored
deriving DecidableEq, Repr

/-- Which escalation-level templates exist in the message catalog, and
whether an auto-skip notice template exists. The catalog file
templates/ru.json is referenced by the scheduler but not part of the
sources. -/
structure Templates where
  hasEscalation : Nat → Bool
  hasAutoSkip : Bool

/-- Modelled from the spec: templates/ru.json is code of this repository
that is absent from src/ (the scheduler imports it at src/unnamed/part_006
line 481 but only the lookup sites survive). Spec section 4.2 fixes the
intended catalog shape: escalation templates exist for levels 1 and 2, and
"level 3 with no template/action defined triggers auto-skip" with the user
"notified once", so level 3 has no escalation template and an auto-skip
notice template exists. -/
def specTemplates : Templates :=
  { hasEscalation := fun level => decide (level = 1) || decide (level = 2)
    hasAutoSkip := true }

/-- handleAutoSkip of src/unnamed/part_006 lines 832-854: write status
skipped, append one auto_skipped event with source system, send the
auto-skip notice when its template exists, and update gamification
(external). -/
def handleAutoSkip (tpl : Templates) (r : Reminder) (s : SchedState) : SchedState :=
  match updateReminder s.reminders r.reminder_id { status := some .skipped } with
  | .error _ => s
  | .ok (store1, _) =>
    let s1 := { s with reminders := store1 }
    let s2 := createEvent s1
      { reminder_id := r.reminder_id
        user_id := r.user_id
        routine_id := r.routine_id
        event_type := .auto_skipped
        event_source := .system }
    if tpl.hasAutoSkip then sendMessage s2 r.user_id .autoSkipNotice else s2

/-- The escalation worker of src/unnamed/part_006 lines 696-795: re-read the
row; a missing row or a row already completed or skipped is a no-op; then
write escalation_level, look up the level's template; with no template,
level 3 and above auto-skips and lower levels stop; with a template, send
the escalation message and enqueue the next level while it is at most 3. -/
def escalationWorkerStep (tpl : Templates) (reminderId level : Nat) (s : SchedState) :
    SchedState × EscalationResult :=
  match getReminderById s.reminders reminderId with
  | none => (s, .notFound)
  | some r =>
    if r.status = Status.completed ∨ r.status = Status.skipped then
      (s, .statusTerminal r.status)
    else
      match updateReminder s.reminders reminderId { escalation_level := some level } with
      | .error _ => (s, .errored)
      | .ok (store1, _) =>
        let s1 := { s with reminders := store1 }
        if tpl.hasEscalation level then
          let s2 := sendMessage s1 r.user_id (.escalation level)
          let nextDelay :=
            if level = 1 then escalationConfig.2.1 - escalationConfig.1
            else escalationConfig.2.2 - escalationConfig.2.1
          let s3 :=
            if level + 1 ≤ 3 then scheduleEscalation reminderId (level + 1) nextDelay s2
            else s2
          (s3, .escalated level)
        else
          if level ≥ 3 then (handleAutoSkip tpl r s1, .autoSkipped)
          else (s1, .noTemplate)

/-- BullMQ firing a queued escalation entry: the entry leaves the queue and
the worker runs on the remaining state. -/
def fireEscalation (tpl : Templates) (reminderId level : Nat) (s : SchedState) :
    SchedState × EscalationResult :=
  escalationWorkerStep tpl reminderId level
    { s with jobs := removeJob (.escalationJob reminderId level) s.jobs }

/-- Schedule pattern kinds (schedules table, src/unnamed/part_008, and the
switch of generateReminders in src/unnamed/part_006 lines 941-964). -/
inductive ScheduleType where
  | daily
  | weekdays
  | custom
deriving DecidableEq, Repr

/-- One schedules row, restricted to the columns generateReminders reads. -/
structure Schedule where
  schedule_type : ScheduleType
  time_weekdays : Option Nat
  time_weekends : Option Nat
  custom_days : List Nat
deriving DecidableEq, Repr

/-- The per-day switch of generateReminders (src/unnamed/part_006 lines
937-964): daily always uses the weekday time; weekdays uses the weekday
time for days 1-5 and the weekend time for days 6-7; custom uses the weekday
time only when the weekday is listed. A null time produces no reminder
(the shouldCreate and time guard of line 966). Weekdays are 1 = Monday
through 7 = Sunday, as computed by getDay() or 7 on line 935. -/
def scheduleTimeFor (sch : Schedule) (dayOfWeek : Nat) : Option Nat :=
  match sch.schedule_type with
  | .daily => sch.time_weekdays
  | .weekdays => if dayOfWeek ≤ 5 then sch.time_weekdays else sch.time_weekends
  | .custom => if sch.custom_days.contains dayOfWeek then sch.time_weekdays else none

/-- The rows the generation loop of generateReminders produces for one
schedule over a window of (day index, weekday) pairs: one (day, time) row
per day the switch selects a time for. -/
def expandSchedule (sch : Schedule) (window : List (Nat × Nat)) : List (Nat × Nat) :=
  window.filterMap fun d => (scheduleTimeFor sch d.2).map fun t => (d.1, t)

/-- The daysAhead window of generateReminders (src/unnamed/part_006 lines
931-935) as (day index, weekday) pairs, starting from a given weekday. -/
def horizonWindow (startWeekday daysAhead : Nat) : List (Nat × Nat) :=
  (List.range daysAhead).map fun i => (i, (startWeekday - 1 + i) % 7 + 1)

/-- The stored reminder id survives any update. -/
@[simp] theorem applyUpdates_reminder_id (r : Reminder) (u : ReminderUpdates) :
    (applyUpdates r u).reminder_id = r.reminder_id := rfl

/-- The stored owner survives any update. -/
@[simp] theorem applyUpdates_user_id (r : Reminder) (u : ReminderUpdates) :
    (applyUpdates r u).user_id = r.user_id := rfl

/-- The stored routine id survives any update. -/
@[simp] theorem applyUpdates_routine_id (r : Reminder) (u : ReminderUpdates) :
    (applyUpdates r u).routine_id = r.routine_id := rfl

/-- The stored postpone ceiling survives any update. -/
@[simp] theorem applyUpdates_max_postpones (r : Reminder) (u : ReminderUpdates) :
    (applyUpdates r u).max_postpones = r.max_postpones := rfl

/-- A reminder already delivered (status sent) whose level-2 escalation is
still queued: the canonical race between a user action and a pending
escalation. -/
def sentRow : Reminder :=
  { reminder_id := 1
    routine_id := 5
    user_id := 7
    scheduled_date := 0
    scheduled_time := 480
    status := .sent
    postpone_count := 0
    max_postpones := 2
    escalation_level := 1
    sent_at := some 480
    completed_at := none
    confirmation_method := none }

/-- Scheduler state holding sentRow with its level-2 escalation entry
queued. -/
def racingState : SchedState :=
  { reminders := [sentRow]
    events := []
    jobs := [.escalationJob 1 2]
    messages := [] }

/-- A reminder already completed, with an empty queue. -/
def doneRow : Reminder :=
  { reminder_id := 2
    routine_id := 5
    user_id := 7
    scheduled_date := 0
    scheduled_time := 480
    status := .completed
    postpone_count := 0
    max_postpones := 2
    escalation_level := 1
    sent_at := some 480
    completed_at := some 500
    confirmation_method := some .push }

/-- Scheduler state holding only doneRow. -/
def doneState : SchedState :=
  { reminders := [doneRow]
    events := []
    jobs := []
    messages := [] }

/-- C1 counterexample: the stored row has status completed, yet the write
that the deliver path issues with expected status pending still applies and
returns the updated row. updateReminder takes no expected status at all, so
the update is not conditional on the stored status and its return value (the
updated row, present even here) cannot signal a lost race. -/
theorem updateReminder_no_status_guard :
    doneRow.status ≠ .pending ∧
    updateReminder [doneRow] 2 { status := some .sent }
      = .ok ([{ doneRow with status := .sent }], some { doneRow with status := .sent }) :=
  ⟨by decide, rfl⟩

/-- C1 amended: every status write goes through
updateReminder(reminderId, newFields), which filters the fields to an
allow-list and applies them to the row matching the reminder id
unconditionally — whatever the stored status — returning the updated row
rather than an applied-or-not signal; no expected-status argument exists. -/
theorem updateReminder_unconditional (r : Reminder) (u : ReminderUpdates) (st : Status)
    (h : u.status = some st) :
    updateReminder [r] r.reminder_id u
      = .ok ([applyUpdates r u], some (applyUpdates r u)) ∧
    (applyUpdates r u).status = st := by
  have hv : hasValidField u = true := by simp [hasValidField, h]
  refine ⟨?_, ?_⟩
  · simp [updateReminder, hv, updateRows, getReminderById]
  · simp [applyUpdates, h]

/-- C1 witness: the unconditional update applied to a completed row. -/
theorem updateReminder_unconditional_witness :
    updateReminder [doneRow] doneRow.reminder_id { status := some .sent }
      = .ok ([applyUpdates doneRow { status := some .sent }],
          some (applyUpdates doneRow { status := some .sent })) ∧
    (applyUpdates doneRow { status := some .sent }).status = .sent :=
  updateReminder_unconditional doneRow { status := some .sent } .sent rfl

/-- C2 (code evaluated at the failing input): completing or skipping a sent
reminder whose level-2 escalation entry is queued writes the terminal status
but leaves the escalation entry in the queue — neither handler calls
cancelReminderJobs, which no code in the repository invokes. -/
theorem complete_and_skip_leave_escalation_jobs :
    ((handleReminderComplete 7 1 500 racingState).1.jobs = [.escalationJob 1 2]) ∧
    ((getReminderById (handleReminderComplete 7 1 500 racingState).1.reminders 1).map
        Reminder.status = some Status.completed) ∧
    ((handleReminderSkip 7 1 racingState).1.jobs = [.escalationJob 1 2]) ∧
    ((getReminderById (handleReminderSkip 7 1 racingState).1.reminders 1).map
        Reminder.status = some Status.skipped) :=
  ⟨rfl, rfl, rfl, rfl⟩

/-- C3: once a reminder is past pending, the deliver worker re-reads it and
returns without sending or writing; an escalation firing on a completed
reminder returns without sending or writing, leaving the status completed —
in both cases the state is exactly the input state. -/
theorem terminal_status_noops :
    ∀ (users : List User) (now : Nat × Nat) (jd : DeliverJobData) (s : SchedState)
      (r : Reminder) (tpl : Templates) (level : Nat),
      getReminderById s.reminders jd.reminderId = some r →
      (r.status ≠ .pending → reminderWorkerStep users now jd s = (s, .alreadyProcessed)) ∧
      (r.status = .completed →
        escalationWorkerStep tpl jd.reminderId level s = (s, .statusTerminal .completed)) := by
  intro users now jd s r tpl level hr
  refine ⟨?_, ?_⟩
  · intro hnp
    simp [reminderWorkerStep, hr, hnp]
  · intro hc
    simp [escalationWorkerStep, hr, hc]

/-- C3 witness: both no-ops on a completed reminder. -/
theorem terminal_status_noops_witness :
    reminderWorkerStep [] (0, 0) ⟨2, 7⟩ doneState = (doneState, .alreadyProcessed) ∧
    escalationWorkerStep ⟨fun _ => false, true⟩ 2 2 doneState
      = (doneState, .statusTerminal .completed) :=
  have h := terminal_status_noops [] (0, 0) ⟨2, 7⟩ doneState doneRow
    ⟨fun _ => false, true⟩ 2 rfl
  ⟨h.1 (by decide), h.2 rfl⟩

/-- C5: a sent reminder that receives no user action: its queued level-1
escalation fires, then level 2, then level 3. Under the spec-modelled
catalog (no level-3 template) the chain ends with status skipped, exactly
one auto_skipped event, exactly one auto-skip notice to the user, and an
empty queue — no further escalation entry is scheduled. -/
theorem escalation_auto_skip_chain
    (rid routid uid d t pc mp lvl : Nat) (sa ca : Option Nat) (cm : Option ConfirmMethod) :
    let r : Reminder := ⟨rid, routid, uid, d, t, .sent, pc, mp, lvl, sa, ca, cm⟩
    let s0 : SchedState := ⟨[r], [], [.escalationJob rid 1], []⟩
    let s1 := (fireEscalation specTemplates rid 1 s0).1
    let s2 := (fireEscalation specTemplates rid 2 s1).1
    let s3 := (fireEscalation specTemplates rid 3 s2).1
    ((getReminderById s3.reminders rid).map Reminder.status = some .skipped) ∧
    (s3.events.filter fun e => decide (e.event_type = .auto_skipped)).length = 1 ∧
    (s3.messages.filter fun m => decide (m.2 = .autoSkipNotice)).length = 1 ∧
    s3.jobs = [] := by
  simp [fireEscalation, escalationWorkerStep, getReminderById, updateReminder, hasValidField,
    updateRows, applyUpdates, setNullable, specTemplates, handleAutoSkip, createEvent,
    sendMessage, scheduleEscalation, addJob, removeJob]

/-- C6 (code evaluated at the failing input): a postpone within the limit is
accepted, but the row is left in status postponed rather than a pending
state at the new time, the queued escalation entry is not cancelled, and no
fresh deliver job is enqueued — the rescheduling is an unimplemented TODO. -/
theorem postpone_reschedules_nothing :
    ((handleReminderPostpone 7 1 15 racingState).2 = .ok) ∧
    ((getReminderById (handleReminderPostpone 7 1 15 racingState).1.reminders 1).map
        Reminder.status = some Status.postponed) ∧
    ((handleReminderPostpone 7 1 15 racingState).1.jobs = [.escalationJob 1 2]) :=
  ⟨rfl, rfl, rfl⟩

/-- C7: on a reminder with max_postpones 2 and postpone_count 0 — whatever
its other columns — three consecutive postpone calls succeed, succeed, and
answer the dedicated limit-reached message (a distinct reply from
errors.general and errors.not_found), and the stored postpone_count ends
at 2. -/
theorem postpone_limit_sequence
    (rid routid uid d t : Nat) (st : Status) (lvl : Nat)
    (sa ca : Option Nat) (cm : Option ConfirmMethod) (m1 m2 m3 : Nat) :
    let r : Reminder := ⟨rid, routid, uid, d, t, st, 0, 2, lvl, sa, ca, cm⟩
    let s0 : SchedState := ⟨[r], [], [], []⟩
    let p1 := handleReminderPostpone uid rid m1 s0
    let p2 := handleReminderPostpone uid rid m2 p1.1
    let p3 := handleReminderPostpone uid rid m3 p2.1
    p1.2 = .ok ∧ p2.2 = .ok ∧ p3.2 = .limitReached ∧
      ((getReminderById p3.1.reminders rid).map Reminder.postpone_count = some 2) := by
  simp [handleReminderPostpone, getReminderById, updateReminder, hasValidField,
    updateRows, applyUpdates, setNullable, sendMessage]

/-- C10: a complete, skip or postpone request for a reminder that does not
exist, or whose owner differs from the requesting user, answers the
not-found reply and changes nothing but the outbox: the reminders table, the
events table and the queue of the resulting state are those of the input
state. -/
theorem unknown_or_foreign_reminder_rejected :
    ∀ (uid rid now minutes : Nat) (s : SchedState),
      (getReminderById s.reminders rid = none ∨
        ∃ r, getReminderById s.reminders rid = some r ∧ r.user_id ≠ uid) →
      handleReminderComplete uid rid now s = (sendMessage s uid .notFound, .notFound) ∧
      handleReminderSkip uid rid s = (sendMessage s uid .notFound, .notFound) ∧
      handleReminderPostpone uid rid minutes s = (sendMessage s uid .notFound, .notFound) := by
  intro uid rid now minutes s h
  rcases h with h | ⟨r, hr, hne⟩
  · simp [handleReminderComplete, handleReminderSkip, handleReminderPostpone, h]
  · simp [handleReminderComplete, handleReminderSkip, handleReminderPostpone, hr, hne]

/-- C10 witness: user 9 asking about user 7's reminder. -/
theorem unknown_or_foreign_reminder_rejected_witness :
    handleReminderComplete 9 1 500 racingState
        = (sendMessage racingState 9 .notFound, .notFound) ∧
    handleReminderSkip 9 1 racingState = (sendMessage racingState 9 .notFound, .notFound) ∧
    handleReminderPostpone 9 1 15 racingState
        = (sendMessage racingState 9 .notFound, .notFound) :=
  unknown_or_foreign_reminder_rejected 9 1 500 15 racingState
    (Or.inr ⟨sentRow, rfl, by decide⟩)

/-- C4: createReminder evaluated against the schema of part_008. The INSERT
names (routine_id, scheduled_date, scheduled_time) as its ON CONFLICT
target, but the schema declares no unique or exclusion constraint on that
column set, so PostgreSQL rejects the statement outright — generation never
reaches the duplicate-is-a-no-op behaviour the claim relies on. The failing
input is the very first reminder of a routine inserted into an empty table. -/
theorem createReminder_rejected_without_arbiter :
    createReminder [] 1
      { routine_id := 5, user_id := 7, scheduled_date := 0, scheduled_time := 420 }
      = .error .noArbiterIndex := rfl

/-- C8: the quiet-hours vectors and characterization. For the wrapping
window 23:00-08:00 (1380 and 480 minutes), isQuietHours holds at 23:30,
03:00 and 07:30 and fails at 22:00 and 08:30; for any window it is
characterized as t at-or-after start or at-or-before end when the window
wraps, and start at-most t at-most end otherwise; and getEndOfQuietHours
returns 08:00 the same day from 02:00 and 08:00 the next day from 09:00. -/
theorem quiet_hours_spec :
    (isQuietHours ⟨1, some 1380, some 480⟩ 1410 = true) ∧
    (isQuietHours ⟨1, some 1380, some 480⟩ 180 = true) ∧
    (isQuietHours ⟨1, some 1380, some 480⟩ 450 = true) ∧
    (isQuietHours ⟨1, some 1380, some 480⟩ 1320 = false) ∧
    (isQuietHours ⟨1, some 1380, some 480⟩ 510 = false) ∧
    (∀ qs qe t : Nat, qe < qs →
      (isQuietHours ⟨1, some qs, some qe⟩ t = true ↔ (t ≥ qs ∨ t ≤ qe))) ∧
    (∀ qs qe t : Nat, qs ≤ qe →
      (isQuietHours ⟨1, some qs, some qe⟩ t = true ↔ (qs ≤ t ∧ t ≤ qe))) ∧
    (getEndOfQuietHours ⟨1, some 1380, some 480⟩ (5, 120) = some (5, 480)) ∧
    (getEndOfQuietHours ⟨1, some 1380, some 480⟩ (5, 540) = some (6, 480)) := by
  refine ⟨by decide, by decide, by decide, by decide, by decide, ?_, ?_, by decide, by decide⟩
  · intro qs qe t h
    simp [isQuietHours, Nat.not_le.mpr h]
  · intro qs qe t h
    simp [isQuietHours, h]

/-- C8 witness: the characterization applied to the wrapping 23:00-08:00
window at 03:00. -/
theorem quiet_hours_spec_witness :
    (480 : Nat) < 1380 ∧
    (isQuietHours ⟨1, some 1380, some 480⟩ 180 = true ↔ (180 ≥ 1380 ∨ 180 ≤ 480)) :=
  ⟨by decide, quiet_hours_spec.2.2.2.2.2.1 1380 480 180 (by decide)⟩

/-- C9: a weekday/weekend split schedule with weekday time 07:00 (420) and
weekend time 09:00 (540), expanded over the 7-day window that starts on a
Monday, yields exactly one row per day: 07:00 on the five weekdays and
09:00 on both weekend days, for every value of the unused custom_days
column. -/
theorem weekday_split_expansion (cds : List Nat) :
    expandSchedule ⟨.weekdays, some 420, some 540, cds⟩ (horizonWindow 1 7)
      = [(0, 420), (1, 420), (2, 420), (3, 420), (4, 420), (5, 540), (6, 540)] := rfl

end HabitMax
